import Mathlib

/-!
Verification of the textures-viewer application state logic, embedded from
`src/src/App.tsx`.

The development models:
* the Selection/Upload state machine (`textureOptions`, `textureUrl`,
  the `customTextures` sessionStorage slot, and the `addCustomTexture` /
  `removeCustomTexture` handlers);
* the curtain-transform persistence (`curtainTransform` localStorage slot,
  `handleSaveTransform`, and the restore effect run on mount);
* the texture-configuration effect and the `Curtain` material assignment.

JSON values (as produced by `JSON.stringify` and consumed by `JSON.parse`)
are modelled by an inductive `Json` type with rational numbers.  The string
contents of a storage slot are modelled as `Except Unit Json`: `.ok j` is a
string that parses to the JSON value `j`, `.error ()` is a malformed string
on which `JSON.parse` throws.  The browser guarantee that
`JSON.parse(JSON.stringify(v))` reproduces `v` is reflected by storing the
JSON value itself.  The gizmo-owned placement read by `handleSaveTransform`
(`curtainRef.current.position` / `.rotation`) is engine-owned state outside
the repository; it is modelled, following the spec's PlacementRecord, as a
record of two rational triples.
-/

namespace TexturesViewer

/-- three.js wrapping-mode constant `RepeatWrapping` (value 1000). -/
def RepeatWrapping : Nat := 1000

/-- three.js wrapping-mode constant `MirroredRepeatWrapping` (value 1002). -/
def MirroredRepeatWrapping : Nat := 1002

/-- three.js color-space constant `LinearEncoding` (value 3000). -/
def LinearEncoding : Nat := 3000

/-- three.js color-space constant `sRGBEncoding` (value 3001). -/
def sRGBEncoding : Nat := 3001

/-- JSON values.  Numbers are modelled as rationals. -/
inductive Json where
  | null : Json
  | bool (b : Bool) : Json
  | num (q : Rat) : Json
  | str (s : String) : Json
  | arr (elems : List Json) : Json
  | obj (fields : List (String × Json)) : Json

/-- A texture option, from the `{ label, url, custom }` records of
`App.tsx` (`defaultTextures` entries and uploads). -/
structure TextureOption where
  label : String
  url : String
  custom : Bool
deriving DecidableEq

/-- The hardcoded built-in texture list (`defaultTextures`, App.tsx:136). -/
def defaultTextures : List TextureOption :=
  [ ⟨"Texture 1", "/assets/textures/texture1.jpg", false⟩,
    ⟨"Texture 2", "/assets/textures/texture2.jpg", false⟩,
    ⟨"Texture 3", "/assets/textures/texture3.jpg", false⟩,
    ⟨"Texture 4", "/assets/textures/texture4.jpg", false⟩ ]

/-- Initial active selection: `defaultTextures[0].url` (App.tsx:143). -/
def initialTextureUrl : String :=
  match defaultTextures with
  | [] => ""
  | t :: _ => t.url

/-- JSON encoding of one texture option, with the property order of the
object literals in the source (`{label, url, custom}`). -/
def encodeOption (t : TextureOption) : Json :=
  Json.obj [("label", Json.str t.label), ("url", Json.str t.url),
            ("custom", Json.bool t.custom)]

/-- JSON encoding of a list of texture options (`JSON.stringify(custom)`,
App.tsx:157). -/
def encodeOptions (l : List TextureOption) : Json :=
  Json.arr (l.map encodeOption)

/-- The Selection/Upload state: the option list (`textureOptions`), the
active selection url (`textureUrl`), and the JSON value held by the
session-scoped `customTextures` storage slot. -/
structure SelState where
  options : List TextureOption
  active : String
  sessionSlot : Json

/-- `addCustomTexture` (App.tsx:166-173): append the uploaded option and
make it the active selection. -/
def addCustomTexture (t : TextureOption) (s : SelState) : SelState :=
  { s with options := s.options ++ [t], active := t.url }

/-- `removeCustomTexture` (App.tsx:175-187): drop every option whose url
matches; if the active selection was removed, fall back to the first
remaining option, or to the empty-string sentinel when none remain. -/
def removeCustomTexture (u : String) (s : SelState) : SelState :=
  let newOptions := s.options.filter (fun tex => tex.url != u)
  { s with
    options := newOptions,
    active :=
      if s.active = u then
        match newOptions with
        | [] => ""
        | o :: _ => o.url
      else s.active }

/-- The persistence effect (App.tsx:155-158): whenever `textureOptions`
changes, rewrite the session slot with the JSON of the custom subset. -/
def persistCustom (s : SelState) : SelState :=
  { s with sessionSlot := encodeOptions (s.options.filter (fun tex => tex.custom)) }

/-- One user-level mutation of the option list. -/
inductive Op where
  | add (t : TextureOption) : Op
  | remove (url : String) : Op

/-- One mutation followed by the reactive persistence effect. -/
def step (op : Op) (s : SelState) : SelState :=
  persistCustom
    (match op with
     | Op.add t => addCustomTexture t s
     | Op.remove u => removeCustomTexture u s)

/-- The initial Selection/Upload state after mount: built-in options only,
first built-in active, persistence effect already run once. -/
def initSelState : SelState :=
  persistCustom { options := defaultTextures, active := initialTextureUrl,
                  sessionSlot := Json.arr [] }

/-- Run a sequence of add/remove operations from the initial state. -/
def run (ops : List Op) : SelState :=
  ops.foldl (fun s op => step op s) initSelState

/-- The Selection/Upload invariant: the active selection is the empty-string
sentinel or the url of an option in the current list. -/
def activeValid (s : SelState) : Prop :=
  s.active = "" ∨ s.active ∈ s.options.map (fun t => t.url)

/-- Sample built-in option `A` used in concrete scenarios. -/
def exOptionA : TextureOption :=
  ⟨"Texture 1", "/assets/textures/texture1.jpg", false⟩

/-- Sample custom (uploaded) option `B` used in concrete scenarios. -/
def exOptionB : TextureOption := ⟨"b.png", "blob:b", true⟩

/-- A state with options `[A(builtin), B(custom)]` and active = `B`. -/
def exStateAB : SelState := ⟨[exOptionA, exOptionB], "blob:b", Json.arr []⟩

/-- The gizmo placement / persisted record: position and rotation triples
(the `Transform` type of App.tsx:193). -/
structure Transform where
  position : Rat × Rat × Rat
  rotation : Rat × Rat × Rat
deriving DecidableEq

/-- The default zero placement (App.tsx:194-197). -/
def defaultCurtainTransform : Transform := ⟨(0, 0, 0), (0, 0, 0)⟩

/-- JSON encoding of a triple as a 3-element array. -/
def encodeVec3 (v : Rat × Rat × Rat) : Json :=
  Json.arr [Json.num v.1, Json.num v.2.1, Json.num v.2.2]

/-- JSON encoding of a placement record
(`JSON.stringify(transform)`, App.tsx:212). -/
def encodeTransform (t : Transform) : Json :=
  Json.obj [("position", encodeVec3 t.position),
            ("rotation", encodeVec3 t.rotation)]

/-- Read a JSON number. -/
def decodeNum : Json → Option Rat
  | Json.num q => some q
  | _ => none

/-- Read a 3-element JSON number array as a triple. -/
def decodeVec3 : Json → Option (Rat × Rat × Rat)
  | Json.arr [a, b, c] => do
      let x ← decodeNum a
      let y ← decodeNum b
      let z ← decodeNum c
      pure (x, y, z)
  | _ => none

/-- Read a `{position, rotation}` JSON object as a placement record. -/
def decodeTransform : Json → Option Transform
  | Json.obj [("position", p), ("rotation", r)] => do
      let pv ← decodeVec3 p
      let rv ← decodeVec3 r
      pure ⟨pv, rv⟩
  | _ => none

/-- The string contents of a storage slot: `.ok j` is a string that
`JSON.parse` turns into the JSON value `j`; `.error ()` is a malformed
string on which `JSON.parse` throws. -/
abbrev StoredBlob := Except Unit Json

/-- Transform-persistence state: the durable `curtainTransform` slot
(`none` when no record was ever written) and the in-memory
`curtainTransform` React state, held as the untyped runtime value. -/
structure TransformPersistState where
  slot : Option StoredBlob
  mem : Json

/-- The restore effect (App.tsx:200-205): read the slot; when absent, the
state keeps the default zero placement; when present, `JSON.parse` the
string — the parsed value becomes the placement, and on a malformed string
the `JSON.parse` exception escapes the effect (there is no try/catch),
modelled as `.error`. -/
def restoreCurtainTransform (saved : Option StoredBlob) : Except Unit Json :=
  match saved with
  | none => Except.ok (encodeTransform defaultCurtainTransform)
  | some (Except.error e) => Except.error e
  | some (Except.ok j) => Except.ok j

/-- `handleSaveTransform` (App.tsx:207-216): when a gizmo target is bound,
serialize its placement into the durable slot and mirror it in memory;
when `curtainRef.current` is null, do nothing. -/
def handleSaveTransform (gizmo : Option Transform)
    (s : TransformPersistState) : TransformPersistState :=
  match gizmo with
  | none => s
  | some g => { slot := some (Except.ok (encodeTransform g)),
                mem := encodeTransform g }

/-- A three.js texture, restricted to the fields the app touches.
`repeatV` models `texture.repeat`. -/
structure Texture where
  encoding : Nat
  wrapS : Nat
  wrapT : Nat
  repeatV : Rat × Rat
  needsUpdate : Bool

/-- The user-facing Repeat folder of the Leva panel (App.tsx:232-237):
these are the only parameters feeding the texture-configuration effect;
there is no color-space control. -/
structure RepeatControls where
  repeatX : Rat
  repeatY : Rat
  mirrorWrapX : Bool
  mirrorWrapY : Bool

/-- Body of the texture-configuration effect (App.tsx:263-270): force sRGB
encoding, pick wrap modes from the mirror flags, set the repeat vector and
mark the texture dirty. -/
def configureTexture (p : RepeatControls) (t : Texture) : Texture :=
  { t with
    encoding := sRGBEncoding,
    wrapS := if p.mirrorWrapX then MirroredRepeatWrapping else RepeatWrapping,
    wrapT := if p.mirrorWrapY then MirroredRepeatWrapping else RepeatWrapping,
    repeatV := (p.repeatX, p.repeatY),
    needsUpdate := true }

/-- The texture-configuration effect (App.tsx:262-271) including its
`if (texture)` guard: with no bound texture resource it is a no-op. -/
def textureConfigEffect (p : RepeatControls) (t : Option Texture) :
    Option Texture :=
  match t with
  | none => none
  | some tex => some (configureTexture p tex)

/-- A `MeshStandardMaterial`, restricted to the fields the app sets. -/
structure Material where
  color : Nat
  map : Option Texture

/-- The `Curtain` material assignment (App.tsx:100-114): build a white
standard material whose map is the selected texture (or null), then force
the map's encoding to sRGB when both the texture and the map exist. -/
def curtainMaterial (texture : Option Texture) : Material :=
  let material : Material := { color := 0xffffff, map := texture }
  match texture, material.map with
  | some _, some mp =>
      { material with map := some { mp with encoding := sRGBEncoding } }
  | _, _ => material

lemma activeValid_persistCustom (s : SelState) (h : activeValid s) :
    activeValid (persistCustom s) := h

lemma activeValid_add (t : TextureOption) (s : SelState) :
    activeValid (addCustomTexture t s) := by
  right
  simp [addCustomTexture]

lemma activeValid_remove (u : String) (s : SelState) (h : activeValid s) :
    activeValid (removeCustomTexture u s) := by
  unfold removeCustomTexture
  by_cases hau : s.active = u
  · cases hfil : s.options.filter (fun tex => tex.url != u) with
    | nil => left; simp [hau, hfil]
    | cons o tl =>
        right
        simp only [hau, hfil, if_pos]
        exact List.mem_map_of_mem _ (List.mem_cons_self o tl)
  · rcases h with hempty | hmem
    · left; simpa [hau] using hempty
    · right
      simp only [hau, if_neg, ite_false]
      rcases List.mem_map.mp hmem with ⟨tex, htex, hurl⟩
      refine List.mem_map.mpr ⟨tex, List.mem_filter.mpr ⟨htex, ?_⟩, hurl⟩
      simpa [bne_iff_ne, hurl] using hau

lemma activeValid_step (op : Op) (s : SelState) (h : activeValid s) :
    activeValid (step op s) := by
  cases op with
  | add t => exact activeValid_persistCustom _ (activeValid_add t s)
  | remove u => exact activeValid_persistCustom _ (activeValid_remove u s h)

lemma activeValid_foldl (ops : List Op) (s : SelState) (h : activeValid s) :
    activeValid (ops.foldl (fun st op => step op st) s) := by
  induction ops generalizing s with
  | nil => exact h
  | cons op rest ih => exact ih _ (activeValid_step op s h)

lemma activeValid_init : activeValid initSelState := by
  right
  simp [initSelState, persistCustom, defaultTextures, initialTextureUrl]

/-- The session-slot invariant: the slot holds the JSON of the custom
subset of the current option list. -/
def sessionInv (s : SelState) : Prop :=
  s.sessionSlot = encodeOptions (s.options.filter (fun tex => tex.custom))

lemma sessionInv_persistCustom (s : SelState) :
    sessionInv (persistCustom s) := rfl

lemma sessionInv_step (op : Op) (s : SelState) : sessionInv (step op s) := by
  cases op with
  | add t => exact sessionInv_persistCustom _
  | remove u => exact sessionInv_persistCustom _

lemma sessionInv_foldl (ops : List Op) (s : SelState) (h : sessionInv s) :
    sessionInv (ops.foldl (fun st op => step op st) s) := by
  induction ops generalizing s with
  | nil => exact h
  | cons op rest ih => exact ih _ (sessionInv_step op s)

lemma filter_custom_all (l : List TextureOption) :
    (l.filter (fun tex => tex.custom)).all (fun tex => tex.custom) = true := by
  simp [List.all_eq_true, List.mem_filter]

/-- C1: for every sequence of add/remove operations from the initial state
(built-in options, first built-in active), the active texture selection is
the url of an option in the current option list or the empty-string "none"
sentinel. -/
theorem active_selection_always_valid (ops : List Op) :
    activeValid (run ops) :=
  activeValid_foldl ops initSelState activeValid_init

/-- C2 counterexample: `removeCustomTexture` filters only by url, so given
the url of built-in "Texture 1" it removes that built-in option from the
list. -/
theorem remove_can_delete_builtin :
    (removeCustomTexture "/assets/textures/texture1.jpg" initSelState).options
      = [⟨"Texture 2", "/assets/textures/texture2.jpg", false⟩,
         ⟨"Texture 3", "/assets/textures/texture3.jpg", false⟩,
         ⟨"Texture 4", "/assets/textures/texture4.jpg", false⟩] ∧
    exOptionA ∉
      (removeCustomTexture "/assets/textures/texture1.jpg" initSelState).options := by
  constructor
  · rfl
  · decide

/-- C2 (amended): `removeCustomTexture` removes exactly the options whose
url equals its argument, regardless of the custom flag; a built-in option
survives whenever its url differs from the url being removed. -/
theorem remove_preserves_builtin_other_url (u : String) (s : SelState)
    (b : TextureOption) (hb : b ∈ s.options) (hcustom : b.custom = false)
    (hne : b.url ≠ u) :
    b ∈ (removeCustomTexture u s).options := by
  refine List.mem_filter.mpr ⟨hb, ?_⟩
  simpa [bne_iff_ne] using hne

/-- Witness for the amended C2 at a concrete input. -/
theorem remove_preserves_builtin_other_url_witness :
    exOptionA ∈ (removeCustomTexture "blob:b" initSelState).options :=
  remove_preserves_builtin_other_url "blob:b" initSelState exOptionA
    (by decide) rfl (by decide)

/-- C3 counterexample: when the persisted `curtainTransform` record is a
malformed string, the restore effect does not fall back to the default
placement — the `JSON.parse` exception escapes (there is no try/catch in
App.tsx:200-205). -/
theorem restore_malformed_throws :
    restoreCurtainTransform (some (Except.error ())) = Except.error () ∧
    restoreCurtainTransform (some (Except.error ()))
      ≠ Except.ok (encodeTransform defaultCurtainTransform) := by
  refine ⟨rfl, ?_⟩
  intro h
  exact Except.noConfusion h

/-- C3 (amended): when no `curtainTransform` record exists the default
all-zero placement is kept; a well-formed record becomes the placement;
a malformed record makes the `JSON.parse` exception escape the restore
effect instead of silently falling back to the default. -/
theorem restore_behaviour (j : Json) :
    restoreCurtainTransform none
      = Except.ok (encodeTransform defaultCurtainTransform) ∧
    decodeTransform (encodeTransform defaultCurtainTransform)
      = some defaultCurtainTransform ∧
    restoreCurtainTransform (some (Except.ok j)) = Except.ok j ∧
    restoreCurtainTransform (some (Except.error ())) = Except.error () :=
  ⟨rfl, rfl, rfl, rfl⟩

/-- C4: saving the gizmo placement (position [1,2,3], rotation [0,0.5,0])
writes a `{position:[x,y,z], rotation:[x,y,z]}` record into the durable
slot, and the restore effect run at the next start yields exactly that
record as the in-memory placement. -/
theorem transform_save_restore_roundtrip (s : TransformPersistState) :
    (handleSaveTransform (some ⟨(1, 2, 3), (0, 1/2, 0)⟩) s).slot
      = some (Except.ok (Json.obj
          [("position", Json.arr [Json.num 1, Json.num 2, Json.num 3]),
           ("rotation", Json.arr [Json.num 0, Json.num (1/2), Json.num 0])])) ∧
    restoreCurtainTransform
        (handleSaveTransform (some ⟨(1, 2, 3), (0, 1/2, 0)⟩) s).slot
      = Except.ok (encodeTransform ⟨(1, 2, 3), (0, 1/2, 0)⟩) ∧
    decodeTransform (encodeTransform ⟨(1, 2, 3), (0, 1/2, 0)⟩)
      = some ⟨(1, 2, 3), (0, 1/2, 0)⟩ :=
  ⟨rfl, rfl, rfl⟩

/-- C5: removing the url that is the active selection makes the first
option of the remaining list active, or the empty-string sentinel when the
remaining list is empty. -/
theorem remove_active_falls_back (u : String) (s : SelState)
    (h : s.active = u) :
    (removeCustomTexture u s).active =
      match (removeCustomTexture u s).options with
      | [] => ""
      | o :: _ => o.url := by
  unfold removeCustomTexture
  simp [h]

/-- Witness for C5 on the spec's example: options `[A(builtin), B(custom)]`,
active = `B`; `remove(B)` makes `A` the active selection. -/
theorem remove_active_falls_back_witness :
    (removeCustomTexture "blob:b" exStateAB).active
      = "/assets/textures/texture1.jpg" := by
  have h := remove_active_falls_back "blob:b" exStateAB rfl
  exact h.trans rfl

/-- C6: `addCustomTexture` appends the uploaded option at the end of the
option list (order preserved, no deduplication) and immediately makes its
url the active selection. -/
theorem add_appends_and_selects (t : TextureOption) (s : SelState) :
    (addCustomTexture t s).options = s.options ++ [t] ∧
    (addCustomTexture t s).active = t.url :=
  ⟨rfl, rfl⟩

/-- C7: the texture-configuration effect is pure in the parameters — with
repeatX=3, repeatY=2, mirrorWrapX=true, mirrorWrapY=false the texture ends
with wrapS = mirrored-repeat, wrapT = repeat and repeat = (3,2) whatever
its prior field values; with no bound texture the effect is a no-op. -/
theorem texture_params_pure (t : Texture) (p : RepeatControls) :
    (configureTexture ⟨3, 2, true, false⟩ t).wrapS = MirroredRepeatWrapping ∧
    (configureTexture ⟨3, 2, true, false⟩ t).wrapT = RepeatWrapping ∧
    (configureTexture ⟨3, 2, true, false⟩ t).repeatV = (3, 2) ∧
    textureConfigEffect p none = none :=
  ⟨rfl, rfl, rfl, rfl⟩

/-- C8: saving twice with the gizmo placement unchanged leaves the durable
slot (and in-memory state) identical to the state after the first save. -/
theorem save_transform_idempotent (g : Transform) (s : TransformPersistState) :
    handleSaveTransform (some g) (handleSaveTransform (some g) s)
      = handleSaveTransform (some g) s :=
  rfl

/-- C9: after every sequence of add/remove mutations, the session-scoped
`customTextures` slot holds exactly the JSON of the ordered custom
subsequence of the option list, and every entry written there has
custom = true (built-ins are never written). -/
theorem session_slot_custom_only (ops : List Op) :
    (run ops).sessionSlot
      = encodeOptions ((run ops).options.filter (fun tex => tex.custom)) ∧
    ((run ops).options.filter (fun tex => tex.custom)).all
        (fun tex => tex.custom) = true :=
  ⟨sessionInv_foldl ops initSelState (sessionInv_persistCustom _),
   filter_custom_all _⟩

/-- C10: the color space applied to the loaded texture and to the curtain
material's map is always sRGB — the Leva Repeat controls expose no
color-space parameter, so no reachable parameter combination produces the
linear value. -/
theorem colorspace_always_srgb (p : RepeatControls) (t : Texture)
    (u : Texture) :
    (configureTexture p t).encoding = sRGBEncoding ∧
    (curtainMaterial (some u)).map = some { u with encoding := sRGBEncoding } ∧
    (curtainMaterial none).map = none ∧
    sRGBEncoding ≠ LinearEncoding := by
  refine ⟨rfl, rfl, rfl, ?_⟩
  decide

end TexturesViewer
